import Mathlib

/-!
Verification of the Response Interpretation and Service Dispatch Engine
of the HAGPT wrapper (file hagpt.py).

Python strings are modelled as lists of characters (`PyStr`).  JSON
values (the results of json.loads and the payload bodies sent over the
wire) are modelled by the inductive `Json`; arrays and objects are
represented as cons chains so that decidable equality is derivable.
Python dictionaries passed between functions are association lists in
insertion order (`PyDict`).  Fallible Python code is modelled with
`Except PyErr`: an uncaught exception is an `Except.error`.

The network is modelled by an oracle `respond : HttpRequest → HttpOutcome`
standing for requests.post; a dispatch returns the ha_result string
together with the ordered list of side effects it performed (outbound
network calls and preference-store mutations).
-/

/-- Python `str` modelled as a list of characters. -/
abbrev PyStr := List Char

/-- The backquote character, written via its code point. -/
def backquote : Char := Char.ofNat 96

/-- The code points of the Python `str` whitespace set (the characters
`str.isspace()` accepts and `str.strip()` removes): tab through
carriage return, the information separators 1C to 1F, space, next line
85, no-break space A0, ogham space mark 1680, the spaces 2000 to 200A,
line separator 2028, paragraph separator 2029, narrow no-break space
202F, medium mathematical space 205F and ideographic space 3000. -/
def pyWsCodes : List Nat :=
  [9, 10, 11, 12, 13, 28, 29, 30, 31, 32, 133, 160, 5760,
   8192, 8193, 8194, 8195, 8196, 8197, 8198, 8199, 8200, 8201, 8202,
   8232, 8233, 8239, 8287, 12288]

/-- Characters stripped by Python `str.strip()`: the full Unicode
whitespace set of CPython. -/
def isPyWs (c : Char) : Bool := pyWsCodes.contains c.toNat

/-- ASCII letters, the character class `[a-zA-Z]` of the fence regex. -/
def isAsciiAlpha (c : Char) : Bool :=
  ('a' ≤ c && c ≤ 'z') || ('A' ≤ c && c ≤ 'Z')

/-- Python `str.startswith`. -/
def pyStartsWith : PyStr → PyStr → Bool
  | [], _ => true
  | _ :: _, [] => false
  | p :: ps, c :: cs => p == c && pyStartsWith ps cs

/-- Remove leading Python whitespace (the left half of `str.strip()`). -/
def lstrip (l : PyStr) : PyStr := l.dropWhile isPyWs

/-- Remove trailing Python whitespace (the right half of `str.strip()`). -/
def rstrip (l : PyStr) : PyStr := (l.reverse.dropWhile isPyWs).reverse

/-- Python `str.strip()`. -/
def pystrip (l : PyStr) : PyStr := rstrip (lstrip l)

/-- The three-backquote fence sentinel. -/
def fenceStr : PyStr := [backquote, backquote, backquote]

/-- Model of `re.sub` with the anchored pattern
three backquotes, a run of ASCII letters, an optional newline,
at the start of the text (hagpt.py line 105): when the text starts
with the fence, drop it, the greedy run of letters, and one following
newline if present. -/
def stripLeadFence (l : PyStr) : PyStr :=
  match l with
  | b1 :: b2 :: b3 :: rest =>
    if b1 = backquote ∧ b2 = backquote ∧ b3 = backquote then
      match rest.dropWhile isAsciiAlpha with
      | c :: t => if c = '\n' then t else c :: t
      | [] => []
    else l
  | _ => l

/-- The trailing-fence removal on the reversed text: three backquotes
first, then one optional newline. -/
def stripTrailFenceRev : PyStr → PyStr
  | b1 :: b2 :: b3 :: rest =>
    if b1 = backquote ∧ b2 = backquote ∧ b3 = backquote then
      match rest with
      | c :: t => if c = '\n' then t else c :: t
      | [] => []
    else b1 :: b2 :: b3 :: rest
  | l => l

/-- Model of `re.sub` with the pattern
an optional newline then three backquotes, anchored at the end of the
text (hagpt.py line 106; its input has already been stripped, so the
end-of-text anchor is exact).  Implemented on the reversed text. -/
def stripTrailFence (l : PyStr) : PyStr :=
  (stripTrailFenceRev l.reverse).reverse

/-- The cleaned text of `_clean_ai_response` (hagpt.py lines 105 to 106):
strip, remove one leading fence, strip, remove one trailing fence. -/
def cleanText (s : PyStr) : PyStr :=
  stripTrailFence (pystrip (stripLeadFence (pystrip s)))

/-- Wrap a text in code-fence markup: an opening fence line with a
language tag, the text, and a closing fence at the very end. -/
def wrapFence (tag s : PyStr) : PyStr :=
  fenceStr ++ tag ++ ['\n'] ++ s ++ ['\n'] ++ fenceStr

/-- JSON values (the results of `json.loads` and the request bodies).
Arrays and objects are cons chains: `arrCons h t` prepends `h` to the
array `t`, and `objCons k v t` prepends the member `k : v` to the
object `t`.  `Json.null` also models the Python value `None`.  The
constructors `numInf` and `numNan` model the non-finite Python floats
(which `json.dumps` serialises as `Infinity`, `-Infinity` and `NaN`),
so that every possible result of the `float` builtin is
representable. -/
inductive Json where
  | null
  | bool (b : Bool)
  | num (q : ℚ)
  | numInf (neg : Bool)
  | numNan
  | str (s : PyStr)
  | arrNil
  | arrCons (hd tl : Json)
  | objNil
  | objCons (key : PyStr) (val tl : Json)
deriving DecidableEq, Repr

/-- A Python dict with JSON values, in insertion order. -/
abbrev PyDict := List (PyStr × Json)

/-- Python `d.get(k)`: the value at the first matching key, if any. -/
def dictGet (d : PyDict) (k : PyStr) : Option Json :=
  match d with
  | [] => none
  | (k', v) :: rest => if k' = k then some v else dictGet rest k

/-- Whether a key is present in a dict. -/
def dictHasKey (d : PyDict) (k : PyStr) : Bool :=
  match d with
  | [] => false
  | (k', _) :: rest => k' == k || dictHasKey rest k

/-- One step of Python `dict.update`: overwrite the value in place if
the key exists, otherwise append the new pair at the end. -/
def updStep (base : PyDict) (k : PyStr) (v : Json) : PyDict :=
  if dictHasKey base k then
    base.map (fun p => if p.1 = k then (k, v) else p)
  else
    base ++ [(k, v)]

/-- Python `base.update(upd)` (insertion-order dict semantics). -/
def updateDict (base upd : PyDict) : PyDict :=
  upd.foldl (fun b p => updStep b p.1 p.2) base

/-- A dict as a JSON object value. -/
def Json.ofDict : PyDict → Json
  | [] => .objNil
  | (k, v) :: rest => .objCons k v (Json.ofDict rest)

/-- Python `.get(k)` on a JSON object value. -/
def Json.dGet : Json → PyStr → Option Json
  | .objCons k v t, key => if k = key then some v else t.dGet key
  | _, _ => none

/-- Whether a JSON value is an object (a Python Mapping after loads). -/
def Json.isObj : Json → Bool
  | .objNil => true
  | .objCons _ _ _ => true
  | _ => false

/-- Python exceptions that the modelled code can raise uncaught. -/
inductive PyErr where
  | valueError
  | typeError
  | attributeError
deriving DecidableEq, Repr

/-- The structured intent produced by `_clean_ai_response`
(hagpt.py lines 123 to 129).  `Json.null` models Python `None`.
The field `vars` models the source's `variables` field, whose name is
reserved in Lean. -/
structure Intent where
  service : Json
  target : Json
  vars : Json
  response_text : Json
  data : Json
deriving DecidableEq, Repr

/-- Model of `_clean_ai_response` (hagpt.py lines 99 to 129), parameterised by the
structured-data parser `jloads` standing for `json.loads` (`none` models
a raised JSONDecodeError).  On parse failure the whole cleaned string
becomes the response text.  On parse success the code calls `.get` on
the result, which raises an AttributeError when the parsed value is not
a mapping; only JSONDecodeError is caught. -/
def cleanAiResponse (jloads : PyStr → Option Json) (s : PyStr) :
    Except PyErr Intent :=
  let cleaned := cleanText s
  match jloads cleaned with
  | some j =>
    if j.isObj then
      .ok { service := (j.dGet "service".data).getD .null
            target := (j.dGet "target".data).getD .objNil
            vars := (j.dGet "variables".data).getD .objNil
            response_text := (j.dGet "response_text".data).getD (.str [])
            data := (j.dGet "data".data).getD .objNil }
    else
      .error .attributeError
  | none =>
    .ok { service := .null, target := .objNil, vars := .objNil
          response_text := .str cleaned, data := .objNil }

/-! ### A concrete model of `json.loads`

The dispatcher theorems are generic in the structured-data parser; the
concrete `jsonLoads` below instantiates them on explicit inputs.  It is
a model of Python's strict JSON reader on ordinary finite inputs:
literals, decimal numbers, strings with the standard escapes, arrays
and objects (duplicate object keys keep the last occurrence, as a
Python dict does). -/

/-- JSON structural whitespace. -/
def isJsonWs (c : Char) : Bool :=
  c == ' ' || c == '\t' || c == '\n' || c == '\r'

/-- Numeric value of a run of decimal digits. -/
def digitsVal (l : PyStr) : ℕ :=
  l.foldl (fun a c => a * 10 + (c.toNat - 48)) 0

/-- Split a leading run of decimal digits. -/
def takeDigits (l : PyStr) : PyStr × PyStr :=
  (l.takeWhile Char.isDigit, l.dropWhile Char.isDigit)

/-- The rational value of a decimal literal in scientific parts:
mantissa `m`, number of fraction digits `scale`, decimal exponent `e`.
Built with a single `mkRat` from integer arithmetic so that it
evaluates by kernel reduction. -/
def sciToRat (m : Int) (scale : Nat) (e : Int) : ℚ :=
  mkRat (m * (10 : Int) ^ e.toNat) ((10 : Nat) ^ scale * (10 : Nat) ^ (-e).toNat)

/-- Parse the exponent clause of a decimal number (after the `e`). -/
def jParseExp (l : PyStr) : Option (Int × PyStr) :=
  let (neg, l1) : (Bool × PyStr) :=
    match l with
    | '+' :: r => (false, r)
    | '-' :: r => (true, r)
    | _ => (false, l)
  let (ds, r) := takeDigits l1
  if ds = [] then none
  else some (if neg then -(digitsVal ds : Int) else (digitsVal ds : Int), r)

/-- Parse the optional exponent clause after the digits of a number and
assemble the value. -/
def jParseNumTail (m : Int) (scale : Nat) (r : PyStr) : Option (ℚ × PyStr) :=
  match r with
  | 'e' :: r3 =>
    match jParseExp r3 with
    | some (e, r4) => some (sciToRat m scale e, r4)
    | none => none
  | 'E' :: r3 =>
    match jParseExp r3 with
    | some (e, r4) => some (sciToRat m scale e, r4)
    | none => none
  | _ => some (sciToRat m scale 0, r)

/-- Parse a JSON number body given its sign: an integer part with no
leading zero, an optional fraction, an optional exponent. -/
def jParseNumBody (sgn : Int) (l : PyStr) : Option (ℚ × PyStr) :=
  let (ip, r1) := takeDigits l
  match ip with
  | [] => none
  | d :: ds =>
    if d = '0' ∧ ds ≠ [] then none
    else
      match r1 with
      | '.' :: r =>
        let (fp, r2) := takeDigits r
        if fp = [] then none
        else
          jParseNumTail (sgn * ((digitsVal ip * 10 ^ fp.length + digitsVal fp : ℕ) : Int))
            fp.length r2
      | _ => jParseNumTail (sgn * (digitsVal ip : Int)) 0 r1

/-- Value of one hexadecimal digit, if it is one. -/
def hexVal (c : Char) : Option Nat :=
  if '0' ≤ c ∧ c ≤ '9' then some (c.toNat - 48)
  else if 'a' ≤ c ∧ c ≤ 'f' then some (c.toNat - 87)
  else if 'A' ≤ c ∧ c ≤ 'F' then some (c.toNat - 55)
  else none

/-- Parse the body of a JSON string after the opening quote, handling
the standard escapes. -/
def jParseStrBody (fuel : Nat) (l : PyStr) (acc : PyStr) :
    Option (PyStr × PyStr) :=
  match fuel with
  | 0 => none
  | fuel + 1 =>
    match l with
    | [] => none
    | c :: rest =>
      if c = Char.ofNat 34 then some (acc.reverse, rest)
      else if c = Char.ofNat 92 then
        match rest with
        | [] => none
        | e :: rest2 =>
          if e = Char.ofNat 34 then jParseStrBody fuel rest2 (Char.ofNat 34 :: acc)
          else if e = Char.ofNat 92 then jParseStrBody fuel rest2 (Char.ofNat 92 :: acc)
          else if e = '/' then jParseStrBody fuel rest2 ('/' :: acc)
          else if e = 'n' then jParseStrBody fuel rest2 ('\n' :: acc)
          else if e = 't' then jParseStrBody fuel rest2 ('\t' :: acc)
          else if e = 'r' then jParseStrBody fuel rest2 ('\r' :: acc)
          else if e = 'b' then jParseStrBody fuel rest2 (Char.ofNat 8 :: acc)
          else if e = 'f' then jParseStrBody fuel rest2 (Char.ofNat 12 :: acc)
          else if e = 'u' then
            match rest2 with
            | h1 :: h2 :: h3 :: h4 :: rest3 =>
              match hexVal h1, hexVal h2, hexVal h3, hexVal h4 with
              | some a, some b, some c', some d =>
                jParseStrBody fuel rest3
                  (Char.ofNat (((a * 16 + b) * 16 + c') * 16 + d) :: acc)
              | _, _, _, _ => none
            | _ => none
          else none
      else jParseStrBody fuel rest (c :: acc)

/-- The grammatical role the recursive-descent reader is in (one
datatype so the reader is a single structurally recursive function,
which keeps it reducible by the kernel). -/
inductive JMode where
  | val
  | arrBody
  | arrTail (v : Json)
  | objBody
  | member (k : PyStr) (acc : PyDict)

/-- Fuel-bounded recursive-descent JSON reader.  `JMode.val` reads one
value; the other modes read array and object bodies.  Object members
are merged with last-occurrence-wins dict semantics, as Python builds
a dict from a JSON object. -/
def jParse : Nat → JMode → PyStr → Option (Json × PyStr)
  | 0, _, _ => none
  | fuel + 1, .val, l =>
    match l.dropWhile isJsonWs with
    | 'n' :: 'u' :: 'l' :: 'l' :: r => some (.null, r)
    | 't' :: 'r' :: 'u' :: 'e' :: r => some (.bool true, r)
    | 'f' :: 'a' :: 'l' :: 's' :: 'e' :: r => some (.bool false, r)
    | c :: r =>
      if c = Char.ofNat 34 then
        match jParseStrBody (r.length + 1) r [] with
        | some (s, rest) => some (.str s, rest)
        | none => none
      else if c = Char.ofNat 91 then jParse fuel .arrBody r
      else if c = Char.ofNat 123 then jParse fuel .objBody r
      else if c = '-' then
        match jParseNumBody (-1) r with
        | some (q, rest) => some (.num q, rest)
        | none => none
      else
        match jParseNumBody 1 (c :: r) with
        | some (q, rest) => some (.num q, rest)
        | none => none
    | [] => none
  | fuel + 1, .arrBody, l =>
    match l.dropWhile isJsonWs with
    | c :: r =>
      if c = Char.ofNat 93 then some (.arrNil, r)
      else
        match jParse fuel .val l with
        | some (v, rest) => jParse fuel (.arrTail v) rest
        | none => none
    | [] => none
  | fuel + 1, .arrTail v, l =>
    match l.dropWhile isJsonWs with
    | ',' :: r =>
      match jParse fuel .val r with
      | some (v2, rest) =>
        match jParse fuel (.arrTail v2) rest with
        | some (tl, rest2) => some (.arrCons v tl, rest2)
        | none => none
      | none => none
    | c :: _r =>
      if c = Char.ofNat 93 then some (.arrCons v .arrNil, (l.dropWhile isJsonWs).tail)
      else none
    | [] => none
  | fuel + 1, .objBody, l =>
    match l.dropWhile isJsonWs with
    | c :: r =>
      if c = Char.ofNat 125 then some (.objNil, r)
      else if c = Char.ofNat 34 then
        match jParseStrBody (r.length + 1) r [] with
        | some (k, rest) => jParse fuel (.member k []) rest
        | none => none
      else none
    | [] => none
  | fuel + 1, .member k acc, l =>
    match l.dropWhile isJsonWs with
    | ':' :: r =>
      match jParse fuel .val r with
      | some (v, rest) =>
        let acc2 := updStep acc k v
        match rest.dropWhile isJsonWs with
        | ',' :: r2 =>
          match r2.dropWhile isJsonWs with
          | c :: r3 =>
            if c = Char.ofNat 34 then
              match jParseStrBody (r3.length + 1) r3 [] with
              | some (k2, rest2) => jParse fuel (.member k2 acc2) rest2
              | none => none
            else none
          | [] => none
        | c :: r2 =>
          if c = Char.ofNat 125 then some (Json.ofDict acc2, r2) else none
        | [] => none
      | none => none
    | _ => none

/-- Model of Python `json.loads`: parse one value and require only
whitespace to follow; `none` models a raised JSONDecodeError. -/
def jsonLoads (s : PyStr) : Option Json :=
  match jParse (2 * s.length + 4) .val s with
  | some (v, rest) => if rest.dropWhile isJsonWs = [] then some v else none
  | none => none

/-! ### The Python float conversion

The `float` builtin is external library code, like `json.loads`, so
the dispatcher is parameterised over its behaviour on strings (the one
case with non-trivial parsing); the concrete `pyFloatStr` below
instantiates it on explicit inputs. -/

/-- A value the Python `float` builtin can return: a finite value
(modelled exactly as a rational), a signed infinity, or a NaN. -/
inductive PyFloat where
  | fin (q : ℚ)
  | posInf
  | negInf
  | nan
deriving DecidableEq, Repr

/-- The JSON body value of a Python float, as `json.dumps` serialises
it into the request body. -/
def jsonOfPyFloat : PyFloat → Json
  | .fin q => .num q
  | .posInf => .numInf false
  | .negInf => .numInf true
  | .nan => .numNan

/-- Outcome of Python `float(x)`: a float value, a ValueError
(malformed string), or a TypeError (`None` or a container). -/
inductive FloatConv where
  | ok (v : PyFloat)
  | valueErr
  | typeErr
deriving DecidableEq, Repr

/-- Semantics of Python `float(x)` on a value coming out of parsed
JSON: `None` and containers raise TypeError, booleans and numbers
convert to their own value, and the string case is delegated to the
given conversion standing for the `float` builtin on strings (`none`
models a raised ValueError). -/
def pyFloatVal (floatOfStr : PyStr → Option PyFloat) : Json → FloatConv
  | .null => .typeErr
  | .bool b => .ok (.fin (mkRat (if b then 1 else 0) 1))
  | .num q => .ok (.fin q)
  | .numInf neg => .ok (if neg then .negInf else .posInf)
  | .numNan => .ok .nan
  | .str s =>
    match floatOfStr s with
    | some v => .ok v
    | none => .valueErr
  | .arrNil => .typeErr
  | .arrCons _ _ => .typeErr
  | .objNil => .typeErr
  | .objCons _ _ _ => .typeErr

/-- Read a run of decimal digits in which single underscores may stand
between digits, as Python numeric strings allow: returns the digits
with the underscores removed together with the rest of the text,
consuming nothing when the text does not start with a digit, and
failing on a malformed underscore placement. -/
def takeDigitsURest (l : PyStr) (acc : PyStr) : Option (PyStr × PyStr) :=
  match l with
  | '_' :: c :: rest =>
    if c.isDigit then takeDigitsURest rest (c :: acc) else none
  | '_' :: [] => none
  | c :: rest =>
    if c.isDigit then takeDigitsURest rest (c :: acc)
    else some (acc.reverse, c :: rest)
  | [] => some (acc.reverse, [])

/-- Read an underscore-grouped run of decimal digits, which may be
empty when the text does not start with a digit. -/
def takeDigitsU (l : PyStr) : Option (PyStr × PyStr) :=
  match l with
  | c :: _ => if c.isDigit then takeDigitsURest l [] else some ([], l)
  | [] => some ([], [])

/-- Read the exponent clause of a Python float string after the `e`:
an optional sign and a non-empty underscore-grouped run of digits. -/
def pyExpU (l : PyStr) : Option (Int × PyStr) :=
  let (neg, l1) : (Bool × PyStr) :=
    match l with
    | '+' :: r => (false, r)
    | '-' :: r => (true, r)
    | _ => (false, l)
  match takeDigitsU l1 with
  | some (ds, r) =>
    if ds = [] then none
    else some (if neg then -(digitsVal ds : Int) else (digitsVal ds : Int), r)
  | none => none

/-- Assemble a parsed decimal float string from its sign and digit
groups, reading an optional exponent clause and requiring the text to
end there; at least one of the digit groups must be non-empty. -/
def pyFloatAssemble (neg : Bool) (ip fp rest : PyStr) : Option PyFloat :=
  if ip = [] ∧ fp = [] then none
  else
    let m : Int := ((digitsVal ip * 10 ^ fp.length + digitsVal fp : ℕ) : Int)
    let m : Int := if neg then -m else m
    match rest with
    | [] => some (.fin (sciToRat m fp.length 0))
    | 'e' :: r3 =>
      match pyExpU r3 with
      | some (e, r4) =>
        if r4 = [] then some (.fin (sciToRat m fp.length e)) else none
      | none => none
    | 'E' :: r3 =>
      match pyExpU r3 with
      | some (e, r4) =>
        if r4 = [] then some (.fin (sciToRat m fp.length e)) else none
      | none => none
    | _ => none

/-- Model of Python `float(<string>)`: surrounding Python whitespace
is stripped, then an optional sign followed by either one of the
case-insensitive special words `inf`, `infinity` and `nan`, or digits
with an optional fraction (either side of the point may be empty, but
not both), single underscores allowed between digits, and an optional
exponent.  Non-ASCII decimal digits, which CPython maps to their
values before parsing, are not enumerated here; the dispatcher is
parameterised over the conversion, and this function only instantiates
it on inputs where it agrees with the builtin. -/
def pyFloatStr (s : PyStr) : Option PyFloat :=
  let t := pystrip s
  let (neg, l1) : (Bool × PyStr) :=
    match t with
    | '+' :: r => (false, r)
    | '-' :: r => (true, r)
    | _ => (false, t)
  let low := l1.map Char.toLower
  if low = "inf".data ∨ low = "infinity".data then
    some (if neg then .negInf else .posInf)
  else if low = "nan".data then some .nan
  else
    match takeDigitsU l1 with
    | none => none
    | some (ip, r1) =>
      match r1 with
      | '.' :: r =>
        match takeDigitsU r with
        | none => none
        | some (fp, r2) => pyFloatAssemble neg ip fp r2
      | _ => pyFloatAssemble neg ip [] r1

/-! ### The entity router and service dispatcher -/

/-- The configuration read at construction time: the primary control
plane URL (`HA URL`), the secondary device API URL (`Base URL`) and the
bearer token. -/
structure HAConfig where
  ha_url : PyStr
  base_url : PyStr
  ha_token : PyStr

/-- One outbound HTTP POST as `requests.post` receives it: the URL, the
bearer token when an Authorization header is attached, the JSON body,
and the timeout in seconds. -/
structure HttpRequest where
  url : PyStr
  bearerToken : Option PyStr
  payload : Json
  timeoutSecs : Nat
deriving DecidableEq, Repr

/-- What `requests.post` produces: a response with a status code and a
body text, or a raised RequestException (timeout, connection failure)
carrying its description. -/
inductive HttpOutcome where
  | resp (status : Nat) (text : PyStr)
  | exn (desc : PyStr)

/-- The decimal digits of a natural number (the f-string rendering of
`response.status_code`). -/
def natToCharsAux : Nat → Nat → PyStr → PyStr
  | 0, _, acc => acc
  | fuel + 1, n, acc =>
    let acc' := Char.ofNat (48 + n % 10) :: acc
    if n < 10 then acc' else natToCharsAux fuel (n / 10) acc'

/-- Decimal rendering of a natural number. -/
def natToChars (n : Nat) : PyStr := natToCharsAux (n + 1) n []

/-- The observable side effects of one dispatch: an outbound network
call, or a preference-store mutation `change_setting_val(name, value)`. -/
inductive Effect where
  | netCall (req : HttpRequest)
  | setPref (name : PyStr) (value : Json)
deriving DecidableEq, Repr

/-- Normalisation of an HTTP outcome into the `ha_result` string
(hagpt.py lines 189 to 198 and 251 to 260): `response.ok` (status
below 400) gives `<code>: OK`, other statuses give
`<code>: <response text>`, and a RequestException is caught and gives
`Request error: <description>`. -/
def normalizeResponse : HttpOutcome → PyStr
  | .resp status text =>
    if status < 400 then natToChars status ++ ": OK".data
    else natToChars status ++ ": ".data ++ text
  | .exn desc => "Request error: ".data ++ desc

/-- Perform `requests.post` through the network oracle and normalise
the outcome; the effect trace records exactly one outbound call. -/
def postJson (respond : HttpRequest → HttpOutcome) (url : PyStr)
    (tok : Option PyStr) (payload : Json) : PyStr × List Effect :=
  let req : HttpRequest := ⟨url, tok, payload, 10⟩
  (normalizeResponse (respond req), [.netCall req])

/-- Python `service.split(".", 1)` unpacked into two names: `none`
models the ValueError raised when no separator is present. -/
def splitDot1 : PyStr → Option (PyStr × PyStr)
  | [] => none
  | c :: rest =>
    if c = '.' then some ([], rest)
    else
      match splitDot1 rest with
      | some (a, b) => some (c :: a, b)
      | none => none

/-- Model of `_set_virtual_file_entity` (hagpt.py lines 200 to 222): the
preference-store mutations it performs.  The debug switch maps a
`turn_on` action to the `Debug` log mode and anything else to `Info`;
the preferences selector stores the chosen option; an unsupported
virtual entity only logs a warning and mutates nothing. -/
def setVirtualFileEntity (virt_entity virt_setting : Json) : List Effect :=
  if virt_entity = .str "switch.debug".data then
    [.setPref "Log Mode".data
      (.str (if virt_setting = .str "turn_on".data then "Debug".data else "Info".data))]
  else if virt_entity = .str "input_select.preferences".data then
    [.setPref "Default Preference".data virt_setting]
  else []

/-- Model of `_set_virtual_entity_base` (hagpt.py lines 224 to 260): the
base-station volume call, parameterised by the string conversion of
the `float` builtin.  A ValueError from `float` is caught and reported
as a synthetic client-side error with no call made; a TypeError (for
example from a missing value, i.e. `None`) is not caught.  On success
a `volume.level` body is posted to the secondary base URL with no
bearer token. -/
def setVirtualEntityBase (cfg : HAConfig) (respond : HttpRequest → HttpOutcome)
    (floatOfStr : PyStr → Option PyFloat)
    (virt_entity virt_setting : Json) : Except PyErr (PyStr × List Effect) :=
  if virt_entity = .str "media_player.base_speaker".data then
    match pyFloatVal floatOfStr virt_setting with
    | .typeErr => .error .typeError
    | .valueErr => .ok ("Request error: Volume_Float_Conversion".data, [])
    | .ok vol_level =>
      let payload :=
        Json.objCons "volume".data
          (Json.objCons "level".data (jsonOfPyFloat vol_level) .objNil) .objNil
      .ok (postJson respond (cfg.base_url ++ "/control".data) none payload)
  else
    .ok (postJson respond (cfg.base_url ++ "/control".data) none .objNil)

instance {ε α : Type} [DecidableEq ε] [DecidableEq α] : DecidableEq (Except ε α)
  | .ok a, .ok b =>
    if h : a = b then .isTrue (by rw [h]) else .isFalse (by simp [h])
  | .ok _, .error _ => .isFalse (by simp)
  | .error _, .ok _ => .isFalse (by simp)
  | .error a, .error b =>
    if h : a = b then .isTrue (by rw [h]) else .isFalse (by simp [h])

set_option linter.unusedVariables false in
/-- Model of `_call_ha_service` (hagpt.py lines 131 to 198): the entity router
and service dispatcher.  The result is the `ha_result` string together
with the ordered trace of side effects; `Except.error` models an
uncaught Python exception (which can only arise before any side effect
is performed).  The `dataopt` parameter is dead, as in the source.
`floatOfStr` stands for the `float` builtin on strings, external
library code like `json.loads` and the network. -/
def callHaService (cfg : HAConfig) (respond : HttpRequest → HttpOutcome)
    (floatOfStr : PyStr → Option PyFloat)
    (service : PyStr) (target data dataopt vars : PyDict) :
    Except PyErr (PyStr × List Effect) :=
  match splitDot1 service with
  | none => .error .valueError
  | some (domain, service_name) =>
    let url := cfg.ha_url ++ "/api/services/".data ++ domain ++ "/".data ++ service_name
    let entity_id := dictGet target "entity_id".data
    let entityVal := entity_id.getD .null
    if pyStartsWith "script.".data service ∧ vars ≠ [] then
      .ok (postJson respond url (some cfg.ha_token)
        (Json.ofDict [("entity_id".data, entityVal), ("variables".data, Json.ofDict vars)]))
    else if service = "input_select.select_option".data ∧ data ≠ [] then
      if entity_id = some (.str "input_select.preferences".data) then
        let pref_sel := (dictGet data "option".data).getD .null
        .ok ("200: OK".data, setVirtualFileEntity entityVal pref_sel)
      else
        .ok (postJson respond url (some cfg.ha_token)
          (Json.ofDict (updateDict [("entity_id".data, entityVal)] data)))
    else if pyStartsWith "notify.".data service ∧ data ≠ [] then
      if pyStartsWith "notify.echo_".data service then
        .ok (postJson respond
          (cfg.ha_url ++ "/api/services/".data ++ domain ++ "/send_message".data)
          (some cfg.ha_token)
          (Json.ofDict (updateDict [("entity_id".data, entityVal)] data)))
      else
        .ok (postJson respond url (some cfg.ha_token) (Json.ofDict (updateDict [] data)))
    else
      if entity_id = some (.str "switch.debug".data) then
        .ok ("200: OK".data, setVirtualFileEntity entityVal (.str service_name))
      else if entity_id = some (.str "media_player.base_speaker".data) ∧ data ≠ [] then
        setVirtualEntityBase cfg respond floatOfStr entityVal
          ((dictGet data "volume_level".data).getD .null)
      else
        .ok (postJson respond url (some cfg.ha_token)
          (Json.ofDict (updateDict [("entity_id".data, entityVal)] data)))

/-- Number of outbound network calls in an effect trace. -/
def countNet (effs : List Effect) : Nat :=
  effs.countP (fun e => match e with | .netCall _ => true | _ => false)

/-- Number of preference-store mutations in an effect trace. -/
def countSet (effs : List Effect) : Nat :=
  effs.countP (fun e => match e with | .setPref _ _ => true | _ => false)

/-- The dispatch falls into the default (ordinary device) branch: none
of the script, select-option or notify conditions of
`_call_ha_service` fires. -/
abbrev inDefaultBranch (service : PyStr) (data vars : PyDict) : Prop :=
  ¬(pyStartsWith "script.".data service ∧ vars ≠ []) ∧
  ¬(service = "input_select.select_option".data ∧ data ≠ []) ∧
  ¬(pyStartsWith "notify.".data service ∧ data ≠ [])

/-! ## The claims -/

/-- Claim C1.  For every dispatch whose service falls into the default
(ordinary device) branch and whose target entity_id is the reserved
debug switch virtual entity `switch.debug`, the dispatcher makes no
network call, writes `set("Log Mode", "Debug")` to the preference
store when the action name is `turn_on` and `set("Log Mode", "Info")`
for any other action name, and returns the synthetic success result
`200: OK`. -/
theorem debug_switch_dispatch (cfg : HAConfig) (respond : HttpRequest → HttpOutcome)
    (floatOfStr : PyStr → Option PyFloat) (service domain sname : PyStr) (target data dataopt vars : PyDict)
    (hsplit : splitDot1 service = some (domain, sname))
    (hbr : inDefaultBranch service data vars)
    (htgt : dictGet target "entity_id".data = some (.str "switch.debug".data)) :
    callHaService cfg respond floatOfStr service target data dataopt vars
      = .ok ("200: OK".data,
          [.setPref "Log Mode".data
            (.str (if sname = "turn_on".data then "Debug".data else "Info".data))]) := by
  obtain ⟨h1, h2, h3⟩ := hbr
  unfold callHaService
  rw [hsplit]
  simp only [htgt, if_neg h1, if_neg h2, if_neg h3, if_pos rfl, Option.getD_some,
    setVirtualFileEntity, Json.str.injEq]
  simp

/-- Witness for C1: a `switch.turn_on` dispatch targeting the debug
switch mutates the log mode to Debug and returns the synthetic 200. -/
theorem debug_switch_dispatch_witness :
    callHaService ⟨"http://ha".data, "http://base".data, "tok".data⟩
      (fun _ => .resp 500 []) pyFloatStr "switch.turn_on".data
      [("entity_id".data, .str "switch.debug".data)] [] [] []
      = .ok ("200: OK".data,
          [.setPref "Log Mode".data
            (.str (if "turn_on".data = "turn_on".data then "Debug".data else "Info".data))]) :=
  debug_switch_dispatch _ _ _ _ "switch".data "turn_on".data _ _ _ _
    (by decide) (by decide) (by decide)

/-- Claim C2.  For every dispatch with service
`input_select.select_option`, non-empty data, and target entity_id
equal to the reserved preferences virtual entity
`input_select.preferences`, the dispatcher makes no network call,
writes the chosen option from data into the preference store as
`set("Default Preference", option)`, and returns the synthetic success
result `200: OK`. -/
theorem preferences_select_dispatch (cfg : HAConfig)
    (respond : HttpRequest → HttpOutcome) (floatOfStr : PyStr → Option PyFloat)
    (target data dataopt vars : PyDict)
    (opt : Json) (hdata : data ≠ [])
    (htgt : dictGet target "entity_id".data = some (.str "input_select.preferences".data))
    (hopt : dictGet data "option".data = some opt) :
    callHaService cfg respond floatOfStr "input_select.select_option".data target data dataopt vars
      = .ok ("200: OK".data, [.setPref "Default Preference".data opt]) := by
  have hsplit : splitDot1 "input_select.select_option".data
      = some ("input_select".data, "select_option".data) := by decide
  have hb1 : pyStartsWith "script.".data "input_select.select_option".data = false := by
    decide
  have hne : ¬(Json.str "input_select.preferences".data = .str "switch.debug".data) := by
    decide
  unfold callHaService
  rw [hsplit]
  simp only [htgt, hopt, hb1, setVirtualFileEntity, Option.getD_some, hne]
  simp [hdata]

/-- Witness for C2: selecting the `Casual` option on the preferences
virtual entity stores it as the default preference with a synthetic
200 and no network call. -/
theorem preferences_select_dispatch_witness :
    callHaService ⟨"http://ha".data, "http://base".data, "tok".data⟩
      (fun _ => .resp 500 []) pyFloatStr "input_select.select_option".data
      [("entity_id".data, .str "input_select.preferences".data)]
      [("option".data, .str "Casual".data)] [] []
      = .ok ("200: OK".data,
          [.setPref "Default Preference".data (.str "Casual".data)]) :=
  preferences_select_dispatch _ _ _ _ _ _ _ (.str "Casual".data)
    (by decide) (by decide) (by decide)

set_option linter.unusedVariables false in
/-- Claim C9.  For every non-empty service string that contains no `.`
separator, invoking dispatch raises an unhandled error (the
domain/action split fails before any routing decision); dispatch is
total only under the precondition that the service string contains at
least one `.`. -/
theorem no_dot_service_raises (cfg : HAConfig) (respond : HttpRequest → HttpOutcome)
    (floatOfStr : PyStr → Option PyFloat)
    (service : PyStr) (target data dataopt vars : PyDict)
    (hne : service ≠ []) (hdot : '.' ∉ service) :
    callHaService cfg respond floatOfStr service target data dataopt vars
      = .error .valueError := by
  have hsplit : splitDot1 service = none := by
    clear hne
    induction service with
    | nil => rfl
    | cons c rest ih =>
      rw [List.mem_cons, not_or] at hdot
      rw [splitDot1, if_neg (fun h => hdot.1 h.symm), ih hdot.2]
  unfold callHaService
  rw [hsplit]

/-- Witness for C9: the malformed service name `lighton` makes the
dispatcher raise. -/
theorem no_dot_service_raises_witness :
    callHaService ⟨"http://ha".data, "http://base".data, "tok".data⟩
      (fun _ => .resp 200 []) pyFloatStr "lighton".data [] [] [] []
      = .error .valueError :=
  no_dot_service_raises _ _ _ _ _ _ _ _ (by decide) (by decide)

/-- Claim C10.  For every dispatch in the default branch targeting the
base-station volume virtual entity `media_player.base_speaker` with
empty data, the entity is not intercepted as a virtual entity: the
call is dispatched as an ordinary device call to the primary control
plane with payload consisting of the entity_id alone and the
bearer-token header. -/
theorem base_speaker_empty_data_ordinary (cfg : HAConfig)
    (respond : HttpRequest → HttpOutcome) (floatOfStr : PyStr → Option PyFloat)
    (service domain sname : PyStr)
    (target dataopt vars : PyDict)
    (hsplit : splitDot1 service = some (domain, sname))
    (hbr : inDefaultBranch service [] vars)
    (htgt : dictGet target "entity_id".data
      = some (.str "media_player.base_speaker".data)) :
    callHaService cfg respond floatOfStr service target [] dataopt vars
      = .ok (postJson respond
          (cfg.ha_url ++ "/api/services/".data ++ domain ++ "/".data ++ sname)
          (some cfg.ha_token)
          (Json.objCons "entity_id".data
            (.str "media_player.base_speaker".data) .objNil)) := by
  obtain ⟨h1, h2, h3⟩ := hbr
  have hne : ¬(Json.str "media_player.base_speaker".data
      = .str "switch.debug".data) := by decide
  unfold callHaService
  rw [hsplit]
  simp only [htgt, if_neg h1, if_neg h2, if_neg h3, Option.getD_some]
  simp [updateDict, Json.ofDict, hne]

/-- Witness for C10: a `media_player.turn_off` call on the base
speaker with empty data goes to the primary control plane with the
bearer token. -/
theorem base_speaker_empty_data_ordinary_witness :
    callHaService ⟨"http://ha".data, "http://base".data, "tok".data⟩
      (fun _ => .resp 200 []) pyFloatStr "media_player.turn_off".data
      [("entity_id".data, .str "media_player.base_speaker".data)] [] [] []
      = .ok (postJson (fun _ => .resp 200 [])
          ("http://ha".data ++ "/api/services/".data ++ "media_player".data
            ++ "/".data ++ "turn_off".data)
          (some "tok".data)
          (Json.objCons "entity_id".data
            (.str "media_player.base_speaker".data) .objNil)) :=
  base_speaker_empty_data_ordinary _ _ _ _ "media_player".data "turn_off".data _ _ _
    (by decide) (by decide) (by decide)

/-- Claim C3.  For every dispatch in the default branch targeting the
base-station volume virtual entity `media_player.base_speaker` with
non-empty data: if the extracted volume value converts to a float
(whatever value the `float` builtin, taken as a parameter, returns,
finite or not), a request with body `volume.level` set to that value
is sent to the secondary base URL's `/control` path with no bearer
token (not the primary control plane); if the conversion raises
ValueError, a client-side error result is returned and no network
call is made. -/
theorem volume_virtual_dispatch (cfg : HAConfig)
    (respond : HttpRequest → HttpOutcome) (floatOfStr : PyStr → Option PyFloat)
    (service domain sname : PyStr)
    (target data dataopt vars : PyDict)
    (hsplit : splitDot1 service = some (domain, sname))
    (hbr : inDefaultBranch service data vars)
    (htgt : dictGet target "entity_id".data
      = some (.str "media_player.base_speaker".data))
    (hdata : data ≠ []) :
    (∀ v : PyFloat,
      pyFloatVal floatOfStr ((dictGet data "volume_level".data).getD .null)
        = .ok v →
      callHaService cfg respond floatOfStr service target data dataopt vars
        = .ok (postJson respond (cfg.base_url ++ "/control".data) none
            (Json.objCons "volume".data
              (Json.objCons "level".data (jsonOfPyFloat v) .objNil) .objNil)))
    ∧ (pyFloatVal floatOfStr ((dictGet data "volume_level".data).getD .null)
        = .valueErr →
      callHaService cfg respond floatOfStr service target data dataopt vars
        = .ok ("Request error: Volume_Float_Conversion".data, [])) := by
  obtain ⟨h1, h2, h3⟩ := hbr
  have hne : ¬(Json.str "media_player.base_speaker".data
      = .str "switch.debug".data) := by decide
  have hred : callHaService cfg respond floatOfStr service target data dataopt vars
      = setVirtualEntityBase cfg respond floatOfStr
          (.str "media_player.base_speaker".data)
          ((dictGet data "volume_level".data).getD .null) := by
    unfold callHaService
    rw [hsplit]
    simp only [htgt, if_neg h1, if_neg h2, if_neg h3, Option.getD_some, hne]
    simp [hdata]
  refine ⟨fun v hq => ?_, fun hq => ?_⟩
  · rw [hred]
    unfold setVirtualEntityBase
    rw [if_pos rfl, hq]
  · rw [hred]
    unfold setVirtualEntityBase
    rw [if_pos rfl, hq]

/-- Witness for C3: volume value `"50"` is posted as `volume.level` 50
to the secondary base URL, and volume value `"abc"` yields the
client-side conversion error with an empty effect trace. -/
theorem volume_virtual_dispatch_witness :
    (callHaService ⟨"http://ha".data, "http://base".data, "tok".data⟩
      (fun _ => .resp 200 []) pyFloatStr "media_player.volume_set".data
      [("entity_id".data, .str "media_player.base_speaker".data)]
      [("volume_level".data, .str "50".data)] [] []
      = .ok (postJson (fun _ => .resp 200 [])
          ("http://base".data ++ "/control".data) none
          (Json.objCons "volume".data
            (Json.objCons "level".data (.num 50) .objNil) .objNil)))
    ∧ (callHaService ⟨"http://ha".data, "http://base".data, "tok".data⟩
      (fun _ => .resp 200 []) pyFloatStr "media_player.volume_set".data
      [("entity_id".data, .str "media_player.base_speaker".data)]
      [("volume_level".data, .str "abc".data)] [] []
      = .ok ("Request error: Volume_Float_Conversion".data, [])) :=
  ⟨(volume_virtual_dispatch _ _ _ _ "media_player".data "volume_set".data _ _ _ _
      (by decide) (by decide) (by decide) (by decide)).1 (.fin 50) (by decide),
   (volume_virtual_dispatch _ _ _ _ "media_player".data "volume_set".data _ _ _ _
      (by decide) (by decide) (by decide) (by decide)).2 (by decide)⟩

/-- A text starts with its own prefix extended by anything. -/
theorem pyStartsWith_append (p t : PyStr) : pyStartsWith p (p ++ t) = true := by
  induction p with
  | nil => rfl
  | cons c cs ih => simp [pyStartsWith, ih]

/-- Holding `pyStartsWith p s` exposes `s` as `p` followed by a remainder. -/
theorem pyStartsWith_exists (p s : PyStr) (h : pyStartsWith p s = true) :
    ∃ t, s = p ++ t := by
  induction p generalizing s with
  | nil => exact ⟨s, rfl⟩
  | cons c cs ih =>
    cases s with
    | nil => exact absurd h (by simp [pyStartsWith])
    | cons b bs =>
      rw [pyStartsWith, Bool.and_eq_true, beq_iff_eq] at h
      obtain ⟨t, ht⟩ := ih bs h.2
      exact ⟨t, by rw [h.1, ht, List.cons_append]⟩

/-- Having a longer prefix gives every shorter one. -/
theorem pyStartsWith_mono (p q s : PyStr) (hpq : pyStartsWith p q = true)
    (hq : pyStartsWith q s = true) : pyStartsWith p s = true := by
  obtain ⟨t1, rfl⟩ := pyStartsWith_exists _ _ hpq
  obtain ⟨t2, rfl⟩ := pyStartsWith_exists _ _ hq
  rw [List.append_assoc]
  exact pyStartsWith_append ..

/-- Claim C4, amended.  For every dispatch with a service whose name
matches the notification-channel sub-prefix `notify.echo_` and
non-empty data, the request URL is redirected to the `send_message`
action path on the same domain, and the outbound payload is the
entity_id merged with data (so it carries the data fields as well, not
the entity_id alone). -/
theorem notify_echo_dispatch (cfg : HAConfig)
    (respond : HttpRequest → HttpOutcome) (floatOfStr : PyStr → Option PyFloat)
    (service domain sname : PyStr)
    (target data dataopt vars : PyDict)
    (hsplit : splitDot1 service = some (domain, sname))
    (hecho : pyStartsWith "notify.echo_".data service = true)
    (hdata : data ≠ []) :
    callHaService cfg respond floatOfStr service target data dataopt vars
      = .ok (postJson respond
          (cfg.ha_url ++ "/api/services/".data ++ domain ++ "/send_message".data)
          (some cfg.ha_token)
          (Json.ofDict (updateDict
            [("entity_id".data, (dictGet target "entity_id".data).getD .null)]
            data))) := by
  have hnotify : pyStartsWith "notify.".data service = true :=
    pyStartsWith_mono _ _ _ (by decide) hecho
  have hscB : pyStartsWith "script.".data service = false := by
    rw [Bool.eq_false_iff]
    intro hsc
    obtain ⟨t1, e1⟩ := pyStartsWith_exists _ _ hsc
    obtain ⟨t2, e2⟩ := pyStartsWith_exists _ _ hecho
    rw [e1, show "script.".data = 's' :: "cript.".data from by decide,
      show "notify.echo_".data = 'n' :: "otify.echo_".data from by decide,
      List.cons_append, List.cons_append] at e2
    injection e2 with hh _
    exact absurd hh (by decide)
  have hserv : (service = "input_select.select_option".data) = False :=
    eq_false (fun he => absurd (he ▸ hecho) (by decide))
  unfold callHaService
  rw [hsplit]
  simp only [hscB, hserv, hnotify, hecho, Bool.false_eq_true, false_and,
    if_false, false_and, eq_self_iff_true, true_and]
  simp [hdata]

/-- Witness for C4 (amended): a `notify.echo_show` call with a message
is redirected to `send_message` with the merged payload. -/
theorem notify_echo_dispatch_witness :
    callHaService ⟨"http://ha".data, "http://base".data, "tok".data⟩
      (fun _ => .resp 200 []) pyFloatStr "notify.echo_show".data
      [("entity_id".data, .str "media_player.echo_show".data)]
      [("message".data, .str "hi".data)] [] []
      = .ok (postJson (fun _ => .resp 200 [])
          ("http://ha".data ++ "/api/services/".data ++ "notify".data
            ++ "/send_message".data)
          (some "tok".data)
          (Json.ofDict (updateDict
            [("entity_id".data, (dictGet
              [("entity_id".data, Json.str "media_player.echo_show".data)]
              "entity_id".data).getD .null)]
            [("message".data, .str "hi".data)]))) :=
  notify_echo_dispatch _ _ _ _ "notify".data "echo_show".data _ _ _ _
    (by decide) (by decide) (by decide)

/-- Counterexample to C4 as stated: for the `notify.echo_show`
dispatch with a message in data, the outbound payload carries the
message field merged in, so it does not carry only the entity_id. -/
theorem notify_echo_payload_counterexample :
    callHaService ⟨"http://ha".data, "http://base".data, "tok".data⟩
      (fun _ => .resp 200 []) pyFloatStr "notify.echo_show".data
      [("entity_id".data, .str "media_player.echo_show".data)]
      [("message".data, .str "hi".data)] [] []
      = .ok ("200: OK".data,
          [.netCall ⟨"http://ha/api/services/notify/send_message".data,
            some "tok".data,
            Json.objCons "entity_id".data (.str "media_player.echo_show".data)
              (Json.objCons "message".data (.str "hi".data) .objNil), 10⟩])
    ∧ Json.objCons "entity_id".data (.str "media_player.echo_show".data)
        (Json.objCons "message".data (.str "hi".data) .objNil)
      ≠ Json.objCons "entity_id".data (.str "media_player.echo_show".data)
          .objNil := by
  decide

/-- Inversion for `postJson`: a normally returned pair coming from a
posted request consists of the normalised response and a one-call
trace. -/
theorem postJson_ok_inv (respond : HttpRequest → HttpOutcome) (u : PyStr)
    (tok : Option PyStr) (p : Json) (r : PyStr) (effs : List Effect)
    (h : postJson respond u tok p = (r, effs)) :
    ∃ req, effs = [.netCall req] ∧ r = normalizeResponse (respond req) := by
  unfold postJson at h
  obtain ⟨h1, h2⟩ := Prod.mk.injEq .. |>.mp h
  exact ⟨⟨u, tok, p, 10⟩, h2.symm, h1.symm⟩

/-- Branch analysis of the dispatcher: every normally returned result
is one of a single posted network call with its normalised response, a
single preference-store mutation with the synthetic `200: OK`, or the
effect-free volume-conversion client error. -/
theorem callHaService_ok_cases (cfg : HAConfig)
    (respond : HttpRequest → HttpOutcome) (floatOfStr : PyStr → Option PyFloat)
    (service : PyStr)
    (target data dataopt vars : PyDict) (r : PyStr) (effs : List Effect)
    (h : callHaService cfg respond floatOfStr service target data dataopt vars
      = .ok (r, effs)) :
    (∃ req, effs = [.netCall req] ∧ r = normalizeResponse (respond req))
    ∨ (∃ name v, effs = [.setPref name v] ∧ r = "200: OK".data)
    ∨ (effs = [] ∧ r = "Request error: Volume_Float_Conversion".data) := by
  unfold callHaService at h
  rcases hs : splitDot1 service with _ | ⟨domain, sname⟩
  · rw [hs] at h
    exact absurd h (by simp)
  · rw [hs] at h
    dsimp only at h
    split at h
    · -- script branch
      rw [Except.ok.injEq] at h
      exact Or.inl (postJson_ok_inv _ _ _ _ _ _ h)
    · split at h
      · -- select option on the preferences virtual entity
        split at h
        · next hcond =>
          rw [Except.ok.injEq, Prod.mk.injEq] at h
          rw [hcond] at h
          refine Or.inr (Or.inl ⟨"Default Preference".data,
            (dictGet data "option".data).getD .null, ?_, h.1.symm⟩)
          rw [← h.2]
          unfold setVirtualFileEntity
          rw [Option.getD_some, if_neg (by decide), if_pos rfl]
        · rw [Except.ok.injEq] at h
          exact Or.inl (postJson_ok_inv _ _ _ _ _ _ h)
      · split at h
        · -- notify branch (echo or plain)
          split at h
          · rw [Except.ok.injEq] at h
            exact Or.inl (postJson_ok_inv _ _ _ _ _ _ h)
          · rw [Except.ok.injEq] at h
            exact Or.inl (postJson_ok_inv _ _ _ _ _ _ h)
        · -- default branch
          split at h
          · next hcond =>
            rw [Except.ok.injEq, Prod.mk.injEq] at h
            rw [hcond] at h
            refine Or.inr (Or.inl ⟨"Log Mode".data,
              .str (if Json.str sname = .str "turn_on".data
                then "Debug".data else "Info".data), ?_, h.1.symm⟩)
            rw [← h.2]
            unfold setVirtualFileEntity
            rw [Option.getD_some, if_pos rfl]
          · split at h
            · next hcond =>
              obtain ⟨hc1, _⟩ := hcond
              rw [hc1] at h
              unfold setVirtualEntityBase at h
              rw [Option.getD_some, if_pos rfl] at h
              split at h
              · exact absurd h (by simp)
              · rw [Except.ok.injEq, Prod.mk.injEq] at h
                exact Or.inr (Or.inr ⟨h.2.symm, h.1.symm⟩)
              · rw [Except.ok.injEq] at h
                exact Or.inl (postJson_ok_inv _ _ _ _ _ _ h)
            · rw [Except.ok.injEq] at h
              exact Or.inl (postJson_ok_inv _ _ _ _ _ _ h)

/-- Claim C5, amended.  For every invocation of dispatch that returns
normally after performing a network call, the ha_result string is the
normalisation of the HTTP outcome: `<code>: OK` when the status code
is below 400 (`response.ok`), `<code>: <error detail>` when it is 400
or above, and a transport failure (timeout or connection error) is
converted into the synthetic result `Request error: <description>`
rather than raised to the caller as an unhandled fault. -/
theorem ha_result_contract (cfg : HAConfig)
    (respond : HttpRequest → HttpOutcome) (floatOfStr : PyStr → Option PyFloat)
    (service : PyStr)
    (target data dataopt vars : PyDict) (r : PyStr) (effs : List Effect)
    (req : HttpRequest) (code : Nat) (text desc : PyStr)
    (h : callHaService cfg respond floatOfStr service target data dataopt vars
      = .ok (r, effs))
    (hmem : Effect.netCall req ∈ effs) :
    r = normalizeResponse (respond req)
    ∧ normalizeResponse (.resp code text)
      = (if code < 400 then natToChars code ++ ": OK".data
         else natToChars code ++ ": ".data ++ text)
    ∧ normalizeResponse (.exn desc) = "Request error: ".data ++ desc := by
  refine ⟨?_, rfl, rfl⟩
  rcases callHaService_ok_cases _ _ _ _ _ _ _ _ _ _ h with
    ⟨req0, he, hr⟩ | ⟨n, v, he, _⟩ | ⟨he, _⟩
  · rw [he] at hmem
    simp only [List.mem_singleton, Effect.netCall.injEq] at hmem
    rw [hr, hmem]
  · rw [he] at hmem
    simp at hmem
  · rw [he] at hmem
    simp at hmem

/-- Witness for C5 (amended): a dispatch whose transport times out
returns the synthetic request-error string for the posted request. -/
theorem ha_result_contract_witness :
    "Request error: timed out".data
      = normalizeResponse ((fun _ => HttpOutcome.exn "timed out".data)
          (⟨"http://ha/api/services/light/turn_on".data, some "tok".data,
            Json.objCons "entity_id".data (.str "light.kitchen".data) .objNil,
            10⟩ : HttpRequest))
    ∧ normalizeResponse (.resp 304 "Not Modified".data)
      = (if 304 < 400 then natToChars 304 ++ ": OK".data
         else natToChars 304 ++ ": ".data ++ "Not Modified".data)
    ∧ normalizeResponse (.exn "boom".data) = "Request error: ".data ++ "boom".data :=
  ha_result_contract ⟨"http://ha".data, "http://base".data, "tok".data⟩
    (fun _ => .exn "timed out".data) pyFloatStr "light.turn_on".data
    [("entity_id".data, .str "light.kitchen".data)] [] [] []
    "Request error: timed out".data
    [.netCall ⟨"http://ha/api/services/light/turn_on".data, some "tok".data,
      Json.objCons "entity_id".data (.str "light.kitchen".data) .objNil, 10⟩]
    ⟨"http://ha/api/services/light/turn_on".data, some "tok".data,
      Json.objCons "entity_id".data (.str "light.kitchen".data) .objNil, 10⟩
    304 "Not Modified".data "boom".data (by decide) (by decide)

/-- Counterexample to C5 as stated: a 304 response is a non-2xx
response, yet the dispatcher reports `304: OK` (because `response.ok`
holds for every status below 400), not `<code>: <error detail>`
(which would be `304: Not Modified` here). -/
theorem ha_result_3xx_counterexample :
    callHaService ⟨"http://ha".data, "http://base".data, "tok".data⟩
      (fun _ => .resp 304 "Not Modified".data) pyFloatStr "light.turn_on".data
      [("entity_id".data, .str "light.kitchen".data)] [] [] []
      = .ok ("304: OK".data,
          [.netCall ⟨"http://ha/api/services/light/turn_on".data,
            some "tok".data,
            Json.objCons "entity_id".data (.str "light.kitchen".data) .objNil,
            10⟩])
    ∧ ¬(200 ≤ 304 ∧ 304 < 300)
    ∧ "304: OK".data ≠ "304: ".data ++ "Not Modified".data := by
  decide

/-- Claim C6, amended.  Every invocation of dispatch that returns
normally performs at most one side effect, and never both kinds:
either exactly one outbound network call, or exactly one local
preference-store mutation, or, in the single case of a failed volume
conversion, no side effect at all together with the synthetic
client-side error result. -/
theorem dispatch_at_most_one_side_effect (cfg : HAConfig)
    (respond : HttpRequest → HttpOutcome) (floatOfStr : PyStr → Option PyFloat)
    (service : PyStr)
    (target data dataopt vars : PyDict) (r : PyStr) (effs : List Effect)
    (h : callHaService cfg respond floatOfStr service target data dataopt vars
      = .ok (r, effs)) :
    (countNet effs = 1 ∧ countSet effs = 0)
    ∨ (countNet effs = 0 ∧ countSet effs = 1)
    ∨ (effs = [] ∧ r = "Request error: Volume_Float_Conversion".data) := by
  rcases callHaService_ok_cases _ _ _ _ _ _ _ _ _ _ h with
    ⟨req, he, _⟩ | ⟨n, v, he, _⟩ | ⟨he, hr⟩
  · rw [he]
    left
    constructor <;> simp [countNet, countSet]
  · rw [he]
    right; left
    constructor <;> simp [countNet, countSet]
  · exact Or.inr (Or.inr ⟨he, hr⟩)

/-- Witness for C6 (amended): an ordinary device call performs exactly
one network call and no settings mutation. -/
theorem dispatch_at_most_one_side_effect_witness :
    (countNet [.netCall ⟨"http://ha/api/services/light/turn_on".data,
        some "tok".data,
        Json.objCons "entity_id".data (.str "light.kitchen".data) .objNil,
        10⟩] = 1
      ∧ countSet [.netCall ⟨"http://ha/api/services/light/turn_on".data,
        some "tok".data,
        Json.objCons "entity_id".data (.str "light.kitchen".data) .objNil,
        10⟩] = 0)
    ∨ (countNet [.netCall ⟨"http://ha/api/services/light/turn_on".data,
        some "tok".data,
        Json.objCons "entity_id".data (.str "light.kitchen".data) .objNil,
        10⟩] = 0
      ∧ countSet [.netCall ⟨"http://ha/api/services/light/turn_on".data,
        some "tok".data,
        Json.objCons "entity_id".data (.str "light.kitchen".data) .objNil,
        10⟩] = 1)
    ∨ ([Effect.netCall ⟨"http://ha/api/services/light/turn_on".data,
        some "tok".data,
        Json.objCons "entity_id".data (.str "light.kitchen".data) .objNil,
        10⟩] = ([] : List Effect)
      ∧ "200: OK".data = "Request error: Volume_Float_Conversion".data) :=
  dispatch_at_most_one_side_effect
    ⟨"http://ha".data, "http://base".data, "tok".data⟩
    (fun _ => .resp 200 []) pyFloatStr "light.turn_on".data
    [("entity_id".data, .str "light.kitchen".data)] [] [] [] _ _ (by decide)

/-- Counterexample to C6 as stated: a dispatch to the base-speaker
volume entity whose value fails the float conversion returns normally
with an empty effect trace, performing neither a network call nor a
settings mutation, so it does not perform exactly one side effect. -/
theorem dispatch_zero_side_effects_counterexample :
    callHaService ⟨"http://ha".data, "http://base".data, "tok".data⟩
      (fun _ => .resp 200 []) pyFloatStr "media_player.volume_set".data
      [("entity_id".data, .str "media_player.base_speaker".data)]
      [("volume_level".data, .str "abc".data)] [] []
      = .ok ("Request error: Volume_Float_Conversion".data, [])
    ∧ ¬((countNet [] = 1 ∧ countSet [] = 0)
        ∨ (countNet [] = 0 ∧ countSet [] = 1)) := by
  decide

/-- Claim C7, amended.  For every raw input string whose fence-stripped
text is not syntactically parseable as structured data, the parser
returns an intent with service None, empty target, variables and data,
and response text equal to the fence-stripped input verbatim, and does
not fail on such inputs.  (The unrestricted never-fails claim is
refuted separately: a bare non-mapping value raises AttributeError.) -/
theorem parse_failure_fallback (jloads : PyStr → Option Json) (s : PyStr)
    (h : jloads (cleanText s) = none) :
    cleanAiResponse jloads s
      = .ok ⟨.null, .objNil, .objNil, .str (cleanText s), .objNil⟩ := by
  simp only [cleanAiResponse, h]

/-- Witness for C7 (amended): plain prose falls back to a chat-only
intent carrying the cleaned text. -/
theorem parse_failure_fallback_witness :
    cleanAiResponse jsonLoads "hello there".data
      = .ok ⟨.null, .objNil, .objNil,
          .str (cleanText "hello there".data), .objNil⟩ :=
  parse_failure_fallback jsonLoads _ (by decide)

/-- Counterexample to C7 as stated: the parser can fail with an
unhandled error.  The input `42` parses as a bare number, and the
subsequent attribute access raises an uncaught AttributeError (only
JSONDecodeError is caught), so the parser does not succeed on every
input. -/
theorem parse_bare_number_raises :
    cleanAiResponse jsonLoads "42".data = .error .attributeError := by
  decide

/-! ### Fence-stripping lemmas for C8 -/

/-- Left strip keeps a text whose first character is not whitespace. -/
theorem lstrip_cons_no_ws (c : Char) (t : PyStr) (hc : isPyWs c = false) :
    lstrip (c :: t) = c :: t := by
  rw [lstrip, List.dropWhile_cons_of_neg (by simp [hc])]

/-- Right strip keeps a text whose last character is not whitespace. -/
theorem rstrip_append_no_ws (l : PyStr) (c : Char) (hc : isPyWs c = false) :
    rstrip (l ++ [c]) = l ++ [c] := by
  rw [rstrip, List.reverse_append]
  simp only [List.reverse_cons, List.reverse_nil, List.nil_append,
    List.singleton_append]
  rw [List.dropWhile_cons_of_neg (by simp [hc])]
  simp

/-- A text unchanged by left strip has a non-whitespace head. -/
theorem head_no_ws_of_lstrip (c : Char) (t : PyStr)
    (h : lstrip (c :: t) = c :: t) : isPyWs c = false := by
  by_contra hc
  rw [Bool.not_eq_false] at hc
  rw [lstrip, List.dropWhile_cons_of_pos (by simp [hc])] at h
  have hsub := List.dropWhile_sublist (l := t) isPyWs
  rw [h] at hsub
  have := hsub.length_le
  simp at this

/-- A text that the cleaning steps leave alone is its own cleaned
text. -/
theorem cleanText_eq_self (s : PyStr) (hl : lstrip s = s) (hr : rstrip s = s)
    (hpre : stripLeadFence s = s) (hsuf : stripTrailFence s = s) :
    cleanText s = s := by
  unfold cleanText pystrip
  rw [hl, hr, hpre, hl, hr, hsuf]

/-- Removing the trailing fence from a text that ends in a newline and
a fence recovers the text. -/
theorem stripTrailFence_append_fence (s : PyStr) :
    stripTrailFence (s ++ '\n' :: fenceStr) = s := by
  unfold stripTrailFence
  have hrev : (s ++ '\n' :: fenceStr).reverse
      = backquote :: backquote :: backquote :: '\n' :: s.reverse := by
    simp [fenceStr]
  rw [hrev]
  simp [stripTrailFenceRev]

/-- The wrapped text in head-exposed form. -/
theorem wrapFence_cons (tag s : PyStr) :
    wrapFence tag s = backquote :: backquote :: backquote ::
      (tag ++ '\n' :: (s ++ '\n' :: fenceStr)) := by
  simp [wrapFence, fenceStr]

/-- Cleaning a fence-wrapped text whose body has no leading whitespace
recovers the body. -/
theorem cleanText_wrapFence (tag s : PyStr)
    (htag : ∀ c ∈ tag, isAsciiAlpha c = true) (hl : lstrip s = s) :
    cleanText (wrapFence tag s) = s := by
  have h1 : lstrip (wrapFence tag s) = wrapFence tag s := by
    rw [wrapFence_cons]
    exact lstrip_cons_no_ws _ _ (by decide)
  have h2 : rstrip (wrapFence tag s) = wrapFence tag s := by
    have hsnoc : wrapFence tag s
        = (backquote :: backquote :: backquote ::
            (tag ++ '\n' :: (s ++ ['\n', backquote, backquote]))) ++ [backquote] := by
      rw [wrapFence_cons]
      simp [fenceStr]
    rw [hsnoc]
    exact rstrip_append_no_ws _ _ (by decide)
  have hnl : isAsciiAlpha '\n' = false := by decide
  have h3 : stripLeadFence (wrapFence tag s) = s ++ '\n' :: fenceStr := by
    rw [wrapFence_cons]
    simp only [stripLeadFence, and_self, if_true, eq_self_iff_true]
    rw [List.dropWhile_append_of_pos htag,
      List.dropWhile_cons_of_neg (by decide)]
    simp
  have h4 : stripTrailFence (rstrip (lstrip (s ++ '\n' :: fenceStr))) = s := by
    cases s with
    | nil =>
      decide
    | cons c s' =>
      have hc : isPyWs c = false := head_no_ws_of_lstrip c s' hl
      have h5 : rstrip (lstrip ((c :: s') ++ '\n' :: fenceStr))
          = (c :: s') ++ '\n' :: fenceStr := by
        have hsnoc : (c :: s') ++ '\n' :: fenceStr
            = (c :: (s' ++ ['\n', backquote, backquote])) ++ [backquote] := by
          simp [fenceStr]
        rw [List.cons_append, lstrip_cons_no_ws _ _ hc, ← List.cons_append,
          hsnoc]
        exact rstrip_append_no_ws _ _ (by decide)
      rw [h5]
      exact stripTrailFence_append_fence (c :: s')
  unfold cleanText pystrip
  rw [h1, h2, h3, h4]

/-- Claim C8, amended.  For every raw input that has no leading or
trailing whitespace and is itself unaffected by fence stripping,
wrapping it in code-fence markup (an opening fence line with a
language tag of letters and a closing fence at the very end) and
parsing strips exactly the added fences and yields the same intent as
parsing the unwrapped input.  (Inputs with surrounding whitespace or
their own leading or trailing fence are refuted separately.) -/
theorem fenced_parse_eq (jloads : PyStr → Option Json) (tag s : PyStr)
    (htag : ∀ c ∈ tag, isAsciiAlpha c = true)
    (hl : lstrip s = s) (hr : rstrip s = s)
    (hpre : stripLeadFence s = s) (hsuf : stripTrailFence s = s) :
    cleanAiResponse jloads (wrapFence tag s) = cleanAiResponse jloads s := by
  have h1 : cleanText (wrapFence tag s) = s := cleanText_wrapFence _ _ htag hl
  have h2 : cleanText s = s := cleanText_eq_self _ hl hr hpre hsuf
  unfold cleanAiResponse
  rw [h1, h2]

/-- Witness for C8 (amended): wrapping plain prose in a tagged fence
parses to the same intent as the prose itself. -/
theorem fenced_parse_eq_witness :
    cleanAiResponse jsonLoads (wrapFence "json".data "hello".data)
      = cleanAiResponse jsonLoads "hello".data :=
  fenced_parse_eq jsonLoads "json".data "hello".data (by decide) (by decide)
    (by decide) (by decide) (by decide)

/-- Counterexample to C8 as stated: for the raw input `hi ` (with
a trailing space), parsing the fence-wrapped form yields a different
intent from parsing the unwrapped input, because the unwrapped input
is whitespace-stripped before parsing while the wrapped body is not
right-stripped inside the fence. -/
theorem fenced_parse_counterexample :
    cleanAiResponse jsonLoads (wrapFence [] "hi ".data)
      ≠ cleanAiResponse jsonLoads "hi ".data := by
  decide

example : Json.num 50 ≠ Json.null := by decide
example : pystrip " hi ".data = "hi".data := by decide
example : cleanText (wrapFence "json".data "hello".data) = "hello".data := by decide
example : cleanText "hi ".data = "hi".data := by decide
example : jsonLoads "42".data = some (.num 42) := by decide
example : jsonLoads "hello world".data = none := by decide
example : jsonLoads "-1.5e1".data = some (.num (mkRat (-15) 1)) := by decide
example : jsonLoads " [1, true] ".data
    = some (.arrCons (.num 1) (.arrCons (.bool true) .arrNil)) := by decide
example : jsonLoads (Char.ofNat 123 :: Char.ofNat 34 :: 'a' :: Char.ofNat 34
    :: ':' :: '1' :: [Char.ofNat 125])
    = some (.objCons "a".data (.num 1) .objNil) := by decide
example : pyFloatStr "50".data = some (.fin (mkRat 50 1)) := by decide
example : pyFloatStr " -2.5e1 ".data = some (.fin (mkRat (-25) 1)) := by decide
example : pyFloatStr "abc".data = none := by decide
example : pyFloatStr "5.".data = some (.fin (mkRat 5 1)) := by decide
example : pyFloatStr ".5".data = some (.fin (mkRat 1 2)) := by decide
example : pyFloatStr ".".data = none := by decide
example : pyFloatStr "1_0".data = some (.fin (mkRat 10 1)) := by decide
example : pyFloatStr "1__0".data = none := by decide
example : pyFloatStr "1_.5".data = none := by decide
example : pyFloatStr "5.5_5".data = some (.fin (mkRat 111 20)) := by decide
example : pyFloatStr "1e1_0".data = some (.fin (mkRat 10000000000 1)) := by decide
example : pyFloatStr "iNf".data = some .posInf := by decide
example : pyFloatStr "-Infinity".data = some .negInf := by decide
example : pyFloatStr "+nan".data = some .nan := by decide
example : pyFloatStr "infi".data = none := by decide
example : pyFloatStr (Char.ofNat 160 :: (' ' :: '5' :: '0' :: [Char.ofNat 160]))
    = some (.fin (mkRat 50 1)) := by decide
example : pystrip ('a' :: [Char.ofNat 160]) = ['a'] := by decide
example : natToChars 200 = "200".data := by decide
example :
    callHaService ⟨"http://ha".data, "http://base".data, "tok".data⟩
      (fun _ => .resp 200 "fine".data) pyFloatStr "light.turn_on".data
      [("entity_id".data, .str "light.kitchen".data)]
      [("brightness".data, .num 80)] [] []
    = .ok ("200: OK".data,
        [.netCall ⟨"http://ha/api/services/light/turn_on".data, some "tok".data,
          Json.ofDict [("entity_id".data, .str "light.kitchen".data),
            ("brightness".data, .num 80)], 10⟩]) := by decide
example :
    callHaService ⟨"http://ha".data, "http://base".data, "tok".data⟩
      (fun _ => .resp 404 "missing".data) pyFloatStr "light.turn_on".data
      [("entity_id".data, .str "light.kitchen".data)] [] [] []
    = .ok ("404: missing".data,
        [.netCall ⟨"http://ha/api/services/light/turn_on".data, some "tok".data,
          Json.ofDict [("entity_id".data, .str "light.kitchen".data)], 10⟩]) := by decide
example : cleanText ('h' :: 'i' :: [Char.ofNat 160]) = "hi".data := by decide
example :
    callHaService ⟨"http://ha".data, "http://base".data, "tok".data⟩
      (fun _ => .resp 200 []) pyFloatStr "media_player.volume_set".data
      [("entity_id".data, .str "media_player.base_speaker".data)]
      [("volume_level".data, .str "inf".data)] [] []
    = .ok (postJson (fun _ => .resp 200 [])
        ("http://base".data ++ "/control".data) none
        (Json.objCons "volume".data
          (Json.objCons "level".data (.numInf false) .objNil) .objNil)) := by
  decide
